import Mathlib

/-!
Verification of the test-orchestration and health-verification harness of the
boiler-plate-next-fast-api repository: the retry wrapper, the per-suite
runners, the pre-flight service probe and the top-level orchestrator, as
implemented in `run-tests.js`, `tests/health-check.js`,
`tests/ci-health-check.js` and `tests/integration/run-tests.js`.

JavaScript async functions are embedded as pure Lean functions returning
`Except E α` (`.error e` models a rejected promise / thrown error, `.ok a` a
normal return).  HTTP probing is abstracted by passing the outcome of each
request as an argument (the scripts only inspect status code and parsed body).
-/

/-- Outcome of one HTTP probe, as observed by the callbacks registered in
`checkService` (`run-tests.js:70-85`): either a response with some status
code, a connection error (the `req.on('error')` path), or the 5-second
timeout (the `req.setTimeout(5000)` path). -/
inductive ProbeOutcome where
  | response (statusCode : Nat)
  | connError
  | timeout
deriving DecidableEq

/-- Models `checkService` (`run-tests.js:70-85`): resolves `true` exactly when
the response callback fires with `res.statusCode === 200`; the error and
timeout callbacks resolve `false`.  Every branch resolves, none rejects. -/
def checkService : ProbeOutcome → Bool
  | .response statusCode => statusCode == 200
  | .connError => false
  | .timeout => false

/-- The object `{ apiHealthy, webHealthy }` returned by `checkServices`. -/
structure ServiceStatus where
  apiHealthy : Bool
  webHealthy : Bool
deriving DecidableEq

/-- Models `checkServices` (`run-tests.js:65-105`): one best-effort probe per
service, results packed into `{ apiHealthy, webHealthy }`.  The intervening
log statements have no effect on the returned value. -/
def checkServices (api web : ProbeOutcome) : ServiceStatus :=
  { apiHealthy := checkService api, webHealthy := checkService web }

/-- Execution trace of one `testWithRetry` call: the settled result of the
wrapper (`.error e` = the wrapper re-threw `e`, `.ok a` = it returned
normally with `a`), the number of invocations of the wrapped test function,
and the number of invocations of `sleep`. -/
structure RetryOut (E α : Type) where
  result : Except E α
  calls : Nat
  sleeps : Nat

namespace HealthCheck

/-- Loop body of `testWithRetry` (`tests/health-check.js:69-82`; the copy at
`tests/integration/run-tests.js:70-83` is textually identical).  The JS loop
runs `i` from `0` while `i < retries`; we recurse on
`remaining = retries - i`, so the guard `i < retries` is `remaining > 0` and
the last-attempt test `i === retries - 1` is `remaining == 1`.  `testFn j` is
the outcome of the `j`-th invocation of the wrapped test function. -/
def retryGo (testFn : Nat → Except E Unit) (i : Nat) : Nat → RetryOut E Unit
  | 0 => { result := .ok (), calls := 0, sleeps := 0 }
  | 1 =>
    match testFn i with
    | .ok () => { result := .ok (), calls := 1, sleeps := 0 }
    | .error e => { result := .error e, calls := 1, sleeps := 0 }
  | n + 2 =>
    match testFn i with
    | .ok () => { result := .ok (), calls := 1, sleeps := 0 }
    | .error _ =>
      { result := (retryGo testFn (i + 1) (n + 1)).result,
        calls := (retryGo testFn (i + 1) (n + 1)).calls + 1,
        sleeps := (retryGo testFn (i + 1) (n + 1)).sleeps + 1 }

/-- Models `testWithRetry` of `tests/health-check.js` (and the identical one
of `tests/integration/run-tests.js`): on success it returns immediately; on
the last failed attempt it re-throws the error; otherwise it sleeps
`RETRY_DELAY` and retries.  `retries` is an arbitrary integer; for
`retries <= 0` the loop body never runs and the function returns
`undefined`. -/
def testWithRetry (testFn : Nat → Except E Unit) (retries : Int) : RetryOut E Unit :=
  retryGo testFn 0 retries.toNat

end HealthCheck

namespace CIHealthCheck

/-- Loop body of `testWithRetry` (`tests/ci-health-check.js:70-84`).  Unlike
the health-check variant it catches the last failure too: it logs and
`return false` instead of re-throwing, and `return true` on success.  When
the loop exits without returning (`retries <= 0`) the function returns
`undefined`, modelled as `none`. -/
def retryGo (testFn : Nat → Except E Unit) (i : Nat) : Nat → RetryOut E (Option Bool)
  | 0 => { result := .ok none, calls := 0, sleeps := 0 }
  | 1 =>
    match testFn i with
    | .ok () => { result := .ok (some true), calls := 1, sleeps := 0 }
    | .error _ => { result := .ok (some false), calls := 1, sleeps := 0 }
  | n + 2 =>
    match testFn i with
    | .ok () => { result := .ok (some true), calls := 1, sleeps := 0 }
    | .error _ =>
      { result := (retryGo testFn (i + 1) (n + 1)).result,
        calls := (retryGo testFn (i + 1) (n + 1)).calls + 1,
        sleeps := (retryGo testFn (i + 1) (n + 1)).sleeps + 1 }

/-- Models `testWithRetry` of `tests/ci-health-check.js:70-84`. -/
def testWithRetry (testFn : Nat → Except E Unit) (retries : Int) : RetryOut E (Option Bool) :=
  retryGo testFn 0 retries.toNat

end CIHealthCheck

/-- JavaScript values as far as the test cases inspect parsed JSON bodies:
primitives plus arrays of strings (the shape of `cors_origins` and
`allowed_hosts`). -/
inductive JsValue where
  | null
  | bool (b : Bool)
  | num (n : Int)
  | str (s : String)
  | arr (elems : List String)
deriving DecidableEq

/-- A parsed JSON object, as a field-name / value association list. -/
def JsObj : Type := List (String × JsValue)

/-- JavaScript truthiness of a value, as used by `if (!data[field])`. -/
def jsTruthy : JsValue → Bool
  | .null => false
  | .bool b => b
  | .num n => n != 0
  | .str s => s != ""
  | .arr _ => true

/-- Property access `data[field]`: `none` models `undefined`. -/
def jsGet (data : JsObj) (field : String) : Option JsValue :=
  (data.find? (fun p => p.1 == field)).map (fun p => p.2)

/-- Truthiness of `data[field]` including the `undefined` case. -/
def jsGetTruthy (data : JsObj) (field : String) : Bool :=
  match jsGet data field with
  | none => false
  | some v => jsTruthy v

/-- How a possibly-undefined value renders inside a JS template literal,
as in the error message of `testApiHealth`. -/
def jsDisplay : Option JsValue → String
  | none => "undefined"
  | some .null => "null"
  | some (.bool b) => if b then "true" else "false"
  | some (.num n) => toString n
  | some (.str s) => s
  | some (.arr elems) => String.intercalate "," elems

namespace HealthCheck

/-- Models `testApiHealth` (`tests/health-check.js:84-100`).  `statusCode` is
the probe response's status; `parsed` is the outcome of
`JSON.parse(response.body)` (`.error` = the parse threw, which propagates
uncaught here).  Throws when the status code is not 200 or when the parsed
body's `status` field is not the string "ok"; otherwise returns `data`. -/
def testApiHealth (statusCode : Nat) (parsed : Except String JsObj) :
    Except String JsObj :=
  if statusCode ≠ 200 then
    .error ("API health check failed with status " ++ toString statusCode)
  else do
    let data ← parsed
    if jsGet data "status" ≠ some (.str "ok") then
      .error ("API health status is not \x27ok\x27: " ++ jsDisplay (jsGet data "status"))
    else
      .ok data

end HealthCheck

namespace CIHealthCheck

/-- Models `testApiHealth` (`tests/ci-health-check.js:86-105`).  The non-200
check throws as in the health-check variant, but the `JSON.parse` call AND
the `status !== 'ok'` throw both sit inside a `try` whose
`catch (parseError)` only logs a warning and falls through, so every
200-response path returns normally. -/
def testApiHealth (statusCode : Nat) (parsed : Except String JsObj) :
    Except String Unit :=
  if statusCode ≠ 200 then
    .error ("API health check failed with status " ++ toString statusCode)
  else
    match (do
      let data ← parsed
      if jsGet data "status" ≠ some (.str "ok") then
        Except.error ("API health status is not \x27ok\x27: " ++ jsDisplay (jsGet data "status"))
      else
        Except.ok ()) with
    | .ok () => .ok ()
    | .error _ => .ok ()

end CIHealthCheck

namespace Integration

/-- The `requiredFields` list of `testEnvironmentConfig`
(`tests/integration/run-tests.js:273`). -/
def requiredFields : List String := ["environment", "cors_origins", "allowed_hosts"]

/-- The `for (const field of requiredFields)` loop
(`tests/integration/run-tests.js:274-278`): throws on the first field whose
value is falsy (or absent), in list order. -/
def checkFields (data : JsObj) : List String → Except String Unit
  | [] => .ok ()
  | field :: rest =>
    if jsGetTruthy data field then
      checkFields data rest
    else
      .error ("Missing configuration field: " ++ field)

/-- The tail of `testEnvironmentConfig`
(`tests/integration/run-tests.js:281-287`), reached only once
`cors_origins` is truthy: `data.cors_origins.includes(...)` (result only
logged) and `data.cors_origins.join(', ')` inside a log.  On an array both
succeed; on a string `includes` exists but `join` is not a function; on a
number or boolean `includes` is not a function; `null` cannot reach here
(falsy). -/
def corsOriginsStep : JsValue → Except String Unit
  | .arr _ => .ok ()
  | .str _ => .error "TypeError: data.cors_origins.join is not a function"
  | .null => .error "TypeError: Cannot read properties of null"
  | .bool _ => .error "TypeError: data.cors_origins.includes is not a function"
  | .num _ => .error "TypeError: data.cors_origins.includes is not a function"

/-- Models `testEnvironmentConfig` (`tests/integration/run-tests.js:261-288`):
throws on non-200 status, propagates a `JSON.parse` failure, throws
`Missing configuration field: <field>` at the first falsy required field in
the order environment, cors_origins, allowed_hosts, then inspects
`cors_origins` for the CORS log lines. -/
def testEnvironmentConfig (statusCode : Nat) (parsed : Except String JsObj) :
    Except String Unit :=
  if statusCode ≠ 200 then
    .error ("Environment config check failed with status " ++ toString statusCode)
  else do
    let data ← parsed
    checkFields data requiredFields
    match jsGet data "cors_origins" with
    | none => .error "TypeError: Cannot read properties of undefined"
    | some v => corsOriginsStep v

end Integration

/-- Per-suite aggregate produced by a suite runner's test loop: the ordered
recorded outcomes (`true` = the retry wrapper returned normally, `false` =
it threw and the `catch` recorded a failure) and the two counters. -/
structure SuiteSummary where
  outcomes : List Bool
  passed : Nat
  failed : Nat
deriving DecidableEq

namespace HealthCheck

/-- Models the test loop of `runHealthChecks`
(`tests/health-check.js:230-242`): for each registered test in order, run it
through `testWithRetry`; `passed++` on normal return, `failed++` in the
`catch`.  Each test is a family of per-attempt outcomes as in
`testWithRetry`. -/
def runHealthChecks (tests : List (Nat → Except E Unit)) (retries : Int) :
    SuiteSummary :=
  match tests with
  | [] => { outcomes := [], passed := 0, failed := 0 }
  | t :: rest =>
    let summary := runHealthChecks rest retries
    match (testWithRetry t retries).result with
    | .ok _ =>
      { outcomes := true :: summary.outcomes,
        passed := summary.passed + 1, failed := summary.failed }
    | .error _ =>
      { outcomes := false :: summary.outcomes,
        passed := summary.passed, failed := summary.failed + 1 }

end HealthCheck

namespace Integration

/-- Models the test loop of `runIntegrationTests`
(`tests/integration/run-tests.js:337-356`): same shape as the health-check
loop (its `testWithRetry` at lines 70-83 is an identical copy of the
health-check one, so `HealthCheck.testWithRetry` models it), additionally
pushing a PASSED/FAILED record per test into `results`; `outcomes` records
`status === 'PASSED'` per test in order. -/
def runIntegrationTests (tests : List (Nat → Except E Unit)) (retries : Int) :
    SuiteSummary :=
  match tests with
  | [] => { outcomes := [], passed := 0, failed := 0 }
  | t :: rest =>
    let summary := runIntegrationTests rest retries
    match (HealthCheck.testWithRetry t retries).result with
    | .ok _ =>
      { outcomes := true :: summary.outcomes,
        passed := summary.passed + 1, failed := summary.failed }
    | .error _ =>
      { outcomes := false :: summary.outcomes,
        passed := summary.passed, failed := summary.failed + 1 }

end Integration

namespace Orchestrator

/-- The `status` field of a suite result in `runAllTests`
(`run-tests.js:245-258`): `'PASSED'` / `'FAILED'` from the suite function's
boolean, `'ERROR'` when the suite function threw. -/
inductive SuiteStatus where
  | PASSED
  | FAILED
  | ERROR
deriving DecidableEq

/-- One entry of the `testSuites` array (`run-tests.js:230-236`) together
with the behaviour of its `fn`: `run` is the settled outcome of
`await suite.fn()` (`.ok b` = resolved with boolean `b`, `.error` =
rejected). -/
structure SuiteSpec where
  name : String
  required : Bool
  run : Except String Bool

/-- Status recorded for one suite by the `try`/`catch` around
`await suite.fn()` (`run-tests.js:238-259`). -/
def suiteStatus : Except String Bool → SuiteStatus
  | .ok true => .PASSED
  | .ok false => .FAILED
  | .error _ => .ERROR

/-- The three counters of the summary loop. -/
structure Tally where
  totalPassed : Nat
  totalFailed : Nat
  requiredFailed : Nat
deriving DecidableEq

/-- Models the `results.forEach` summary loop (`run-tests.js:272-296`):
`totalPassed++` on PASSED, otherwise `totalFailed++` and additionally
`requiredFailed++` when the suite is required. -/
def tallyResults : List (SuiteStatus × Bool) → Tally
  | [] => { totalPassed := 0, totalFailed := 0, requiredFailed := 0 }
  | (status, required) :: rest =>
    let t := tallyResults rest
    if status = .PASSED then
      { totalPassed := t.totalPassed + 1, totalFailed := t.totalFailed,
        requiredFailed := t.requiredFailed }
    else
      { totalPassed := t.totalPassed, totalFailed := t.totalFailed + 1,
        requiredFailed := if required then t.requiredFailed + 1 else t.requiredFailed }

/-- Models `runAllTests` (`run-tests.js:214-316`) down to its process exit
code: the pre-flight `checkServices` result is destructured and only logged;
each suite is run and classified PASSED/FAILED/ERROR; the summary loop
computes the counters; `process.exit(1)` when `requiredFailed > 0`,
`process.exit(0)` in both other branches (optional-only failures included). -/
def runAllTests (api web : ProbeOutcome) (suites : List SuiteSpec) : Nat :=
  let _services := checkServices api web
  let results := suites.map (fun s => (suiteStatus s.run, s.required))
  let tally := tallyResults results
  if tally.requiredFailed > 0 then 1 else 0

end Orchestrator

/-- The outcome a suite loop records for one test: `true` when the retry
wrapper returned normally, `false` when it threw. -/
def recordedOutcome {E : Type} (r : Except E Unit) : Bool :=
  match r with
  | .ok _ => true
  | .error _ => false

namespace HealthCheck

/-- On a test function that fails on every attempt, the retry loop with
`n + 1` remaining attempts starting at attempt `i` makes `n + 1` calls,
sleeps `n` times, and re-throws the error of the last attempt `i + n`. -/
theorem retryGo_allFail {E : Type} (testFn : Nat → Except E Unit) (err : Nat → E)
    (hf : ∀ j, testFn j = Except.error (err j)) :
    ∀ (n i : Nat), retryGo testFn i (n + 1) =
      { result := .error (err (i + n)), calls := n + 1, sleeps := n } := by
  intro n
  induction n with
  | zero =>
    intro i
    simp [retryGo, hf i]
  | succ m ih =>
    intro i
    have hidx : i + 1 + m = i + (m + 1) := by omega
    simp [retryGo, hf i, ih (i + 1), hidx]

/-- `testWithRetry` on an always-failing test with a positive attempt budget:
re-throws the last error after exactly `retries.toNat` calls and
`retries.toNat - 1` sleeps. -/
theorem testWithRetry_allFail {E : Type} (testFn : Nat → Except E Unit) (err : Nat → E)
    (retries : Int) (h1 : 1 ≤ retries) (hf : ∀ j, testFn j = Except.error (err j)) :
    testWithRetry testFn retries =
      { result := .error (err (retries.toNat - 1)), calls := retries.toNat,
        sleeps := retries.toNat - 1 } := by
  obtain ⟨k, hk⟩ : ∃ k, retries.toNat = k + 1 := ⟨retries.toNat - 1, by omega⟩
  unfold testWithRetry
  rw [hk, retryGo_allFail testFn err hf k 0]
  simp [hk]

end HealthCheck

namespace CIHealthCheck

/-- CI variant of the all-fail retry-loop lemma: the last failure is caught,
logged and turned into a normal `false` return instead of being re-thrown. -/
theorem ciRetryGo_allFail {E : Type} (testFn : Nat → Except E Unit) (err : Nat → E)
    (hf : ∀ j, testFn j = Except.error (err j)) :
    ∀ (n i : Nat), retryGo testFn i (n + 1) =
      { result := .ok (some false), calls := n + 1, sleeps := n } := by
  intro n
  induction n with
  | zero =>
    intro i
    simp [retryGo, hf i]
  | succ m ih =>
    intro i
    simp [retryGo, hf i, ih (i + 1)]

/-- `testWithRetry` of `ci-health-check.js` on an always-failing test with a
positive attempt budget: returns normally with `false` after exactly
`retries.toNat` calls and `retries.toNat - 1` sleeps. -/
theorem ciTestWithRetry_allFail {E : Type} (testFn : Nat → Except E Unit) (err : Nat → E)
    (retries : Int) (h1 : 1 ≤ retries) (hf : ∀ j, testFn j = Except.error (err j)) :
    testWithRetry testFn retries =
      { result := .ok (some false), calls := retries.toNat,
        sleeps := retries.toNat - 1 } := by
  obtain ⟨k, hk⟩ : ∃ k, retries.toNat = k + 1 := ⟨retries.toNat - 1, by omega⟩
  unfold testWithRetry
  rw [hk, ciRetryGo_allFail testFn err hf k 0]
  simp [hk]

end CIHealthCheck

/-- The health-check suite loop partitions its tests: counters sum to the
number of registered tests. -/
theorem HealthCheck.runHealthChecks_counts {E : Type}
    (tests : List (Nat → Except E Unit)) (retries : Int) :
    (runHealthChecks tests retries).passed + (runHealthChecks tests retries).failed
      = tests.length := by
  induction tests with
  | nil => rfl
  | cons t rest ih =>
    cases hres : (testWithRetry t retries).result <;>
      simp [runHealthChecks, hres] <;> omega

/-- The integration suite loop partitions its tests: counters sum to the
number of registered tests. -/
theorem Integration.runIntegrationTests_counts {E : Type}
    (tests : List (Nat → Except E Unit)) (retries : Int) :
    (runIntegrationTests tests retries).passed + (runIntegrationTests tests retries).failed
      = tests.length := by
  induction tests with
  | nil => rfl
  | cons t rest ih =>
    cases hres : (HealthCheck.testWithRetry t retries).result <;>
      simp [runIntegrationTests, hres] <;> omega

/-- The health-check suite loop records one outcome per registered test, in
order, each determined by that test alone. -/
theorem HealthCheck.runHealthChecks_outcomes {E : Type}
    (tests : List (Nat → Except E Unit)) (retries : Int) :
    (runHealthChecks tests retries).outcomes
      = tests.map (fun t => recordedOutcome (testWithRetry t retries).result) := by
  induction tests with
  | nil => rfl
  | cons t rest ih =>
    cases hres : (testWithRetry t retries).result <;>
      simp [runHealthChecks, recordedOutcome, hres, ih]

/-- The integration suite loop records one outcome per registered test, in
order, each determined by that test alone. -/
theorem Integration.runIntegrationTests_outcomes {E : Type}
    (tests : List (Nat → Except E Unit)) (retries : Int) :
    (runIntegrationTests tests retries).outcomes
      = tests.map (fun t => recordedOutcome (HealthCheck.testWithRetry t retries).result) := by
  induction tests with
  | nil => rfl
  | cons t rest ih =>
    cases hres : (HealthCheck.testWithRetry t retries).result <;>
      simp [runIntegrationTests, recordedOutcome, hres, ih]

/-- The `requiredFailed` counter of the summary loop is positive exactly when
some processed result is flagged required and is not PASSED. -/
theorem Orchestrator.tallyResults_requiredFailed_pos
    (l : List (Orchestrator.SuiteStatus × Bool)) :
    0 < (Orchestrator.tallyResults l).requiredFailed ↔
      ∃ p ∈ l, p.2 = true ∧ p.1 ≠ Orchestrator.SuiteStatus.PASSED := by
  induction l with
  | nil => simp [Orchestrator.tallyResults]
  | cons hd rest ih =>
    obtain ⟨status, required⟩ := hd
    by_cases hs : status = Orchestrator.SuiteStatus.PASSED
    · simp [Orchestrator.tallyResults, hs, ih]
    · by_cases hr : required = true
      · simp [Orchestrator.tallyResults, hs, hr]
      · simp [Orchestrator.tallyResults, hs, hr, ih]

/-- `requiredFailed` over the mapped suite results, phrased on the suite
list itself. -/
theorem Orchestrator.requiredFailed_map_pos (suites : List Orchestrator.SuiteSpec) :
    0 < (Orchestrator.tallyResults
          (suites.map (fun s => (Orchestrator.suiteStatus s.run, s.required)))).requiredFailed ↔
      ∃ s ∈ suites, s.required = true ∧
        Orchestrator.suiteStatus s.run ≠ Orchestrator.SuiteStatus.PASSED := by
  rw [Orchestrator.tallyResults_requiredFailed_pos]
  constructor
  · rintro ⟨p, hp, hreq, hst⟩
    obtain ⟨s, hs, rfl⟩ := List.mem_map.mp hp
    exact ⟨s, hs, hreq, hst⟩
  · rintro ⟨s, hs, hreq, hst⟩
    exact ⟨(Orchestrator.suiteStatus s.run, s.required),
      List.mem_map.mpr ⟨s, hs, rfl⟩, hreq, hst⟩


/-- A first successful attempt returns immediately: one call, no sleep. -/
theorem HealthCheck.retryGo_firstOk {E : Type} (testFn : Nat → Except E Unit)
    (i : Nat) (h : testFn i = Except.ok ()) :
    ∀ n, HealthCheck.retryGo testFn i (n + 1)
      = { result := .ok (), calls := 1, sleeps := 0 } := by
  intro n
  cases n with
  | zero => simp [HealthCheck.retryGo, h]
  | succ m => simp [HealthCheck.retryGo, h]

/-- Claim C1: the orchestrator `runAllTests` terminates the process with exit
code 1 if and only if at least one suite flagged `required = true` did not
pass (FAILED or ERROR), and with exit code 0 when every required suite
passed, even if optional suites failed. -/
theorem runAllTests_exit_code_iff (api web : ProbeOutcome)
    (suites : List Orchestrator.SuiteSpec) :
    Orchestrator.runAllTests api web suites = 1 ↔
      ∃ s ∈ suites, s.required = true ∧
        Orchestrator.suiteStatus s.run ≠ Orchestrator.SuiteStatus.PASSED := by
  rw [← Orchestrator.requiredFailed_map_pos suites]
  simp only [Orchestrator.runAllTests]
  split_ifs with h
  · simp [h]
  · simp [h]

/-- Claim C2, counterexample to the claim as stated: `testWithRetry` of
`ci-health-check.js`, called with an always-failing test and one attempt,
returns normally (resolving with `false`) instead of re-raising the
underlying error. -/
theorem ci_testWithRetry_returns_normally :
    (CIHealthCheck.testWithRetry (fun _ => Except.error "probe refused") 1).result
        = Except.ok (some false) ∧
    (CIHealthCheck.testWithRetry (fun _ => Except.error "probe refused") 1).result
        ≠ Except.error "probe refused" := by
  refine ⟨rfl, ?_⟩
  rw [show (CIHealthCheck.testWithRetry (fun _ => Except.error "probe refused") 1).result
        = Except.ok (some false) from rfl]
  simp

/-- Claim C2 (amended): if the test function fails on every invocation then
the `testWithRetry` of `tests/health-check.js` (and its identical copy in
`tests/integration/run-tests.js`) re-raises the last underlying error after
exactly N consecutive failed attempts and never returns normally, while the
`testWithRetry` of `tests/ci-health-check.js` makes the same N attempts but
then returns normally with `false` instead of re-raising. -/
theorem testWithRetry_allFail_behaviour {E : Type} (testFn : Nat → Except E Unit)
    (err : Nat → E) (N : Nat) (h1 : 1 ≤ N)
    (hf : ∀ j, testFn j = Except.error (err j)) :
    (HealthCheck.testWithRetry testFn (N : Int)).result = Except.error (err (N - 1)) ∧
    (HealthCheck.testWithRetry testFn (N : Int)).calls = N ∧
    (CIHealthCheck.testWithRetry testFn (N : Int)).result = Except.ok (some false) ∧
    (CIHealthCheck.testWithRetry testFn (N : Int)).calls = N := by
  have h1i : (1 : Int) ≤ (N : Int) := by exact_mod_cast h1
  have hhc := HealthCheck.testWithRetry_allFail testFn err (N : Int) h1i hf
  have hci := CIHealthCheck.ciTestWithRetry_allFail testFn err (N : Int) h1i hf
  rw [hhc, hci]
  simp

/-- Witness for the amended claim C2 at N = 2 and a concrete failing test. -/
theorem testWithRetry_allFail_behaviour_witness :
    1 ≤ 2 ∧
    ((HealthCheck.testWithRetry (fun _ => Except.error "probe refused") ((2 : Nat) : Int)).result
        = Except.error "probe refused" ∧
     (HealthCheck.testWithRetry (fun _ => Except.error "probe refused") ((2 : Nat) : Int)).calls = 2 ∧
     (CIHealthCheck.testWithRetry (fun _ => Except.error "probe refused") ((2 : Nat) : Int)).result
        = Except.ok (some false) ∧
     (CIHealthCheck.testWithRetry (fun _ => Except.error "probe refused") ((2 : Nat) : Int)).calls = 2) :=
  ⟨by decide,
   testWithRetry_allFail_behaviour (fun _ => Except.error "probe refused")
     (fun _ => "probe refused") 2 (by decide) (fun _ => rfl)⟩

/-- Claim C3: `testApiHealth` of `tests/ci-health-check.js`, given a probe
response with status 200 whose JSON body has a `status` field different from
"ok", completes normally (its own assertion error is swallowed by the
`catch (parseError)` block), while the `testApiHealth` of
`tests/health-check.js` raises the descriptive error on the same input. -/
theorem ci_testApiHealth_swallows_status_assertion :
    CIHealthCheck.testApiHealth 200 (Except.ok [("status", JsValue.str "degraded")])
        = Except.ok () ∧
    HealthCheck.testApiHealth 200 (Except.ok [("status", JsValue.str "degraded")])
        = Except.error "API health status is not \x27ok\x27: degraded" :=
  ⟨rfl, rfl⟩

/-- Claim C4: with retry budget N at least 1, a test case failing on every
attempt is invoked exactly N times and the delay is invoked exactly N - 1
times; no delay follows the final failed attempt. -/
theorem testWithRetry_call_and_sleep_counts {E : Type} (testFn : Nat → Except E Unit)
    (err : Nat → E) (N : Nat) (h1 : 1 ≤ N)
    (hf : ∀ j, testFn j = Except.error (err j)) :
    (HealthCheck.testWithRetry testFn (N : Int)).calls = N ∧
    (HealthCheck.testWithRetry testFn (N : Int)).sleeps = N - 1 := by
  have h1i : (1 : Int) ≤ (N : Int) := by exact_mod_cast h1
  have hhc := HealthCheck.testWithRetry_allFail testFn err (N : Int) h1i hf
  rw [hhc]
  simp

/-- Witness for claim C4 at N = 3 and a concrete failing test. -/
theorem testWithRetry_call_and_sleep_counts_witness :
    1 ≤ 3 ∧
    ((HealthCheck.testWithRetry (fun _ => Except.error "down") ((3 : Nat) : Int)).calls = 3 ∧
     (HealthCheck.testWithRetry (fun _ => Except.error "down") ((3 : Nat) : Int)).sleeps = 2) :=
  ⟨by decide,
   testWithRetry_call_and_sleep_counts (fun _ => Except.error "down")
     (fun _ => "down") 3 (by decide) (fun _ => rfl)⟩

/-- Claim C5: after a completed suite run, passed plus failed equals the
number of registered test cases, for the health-check suite loop and the
integration suite loop alike. -/
theorem suite_counts_partition {E : Type} (tests : List (Nat → Except E Unit))
    (retries : Int) :
    (HealthCheck.runHealthChecks tests retries).passed
        + (HealthCheck.runHealthChecks tests retries).failed = tests.length ∧
    (Integration.runIntegrationTests tests retries).passed
        + (Integration.runIntegrationTests tests retries).failed = tests.length :=
  ⟨HealthCheck.runHealthChecks_counts tests retries,
   Integration.runIntegrationTests_counts tests retries⟩

/-- Claim C6: the suite runners never short-circuit: each runner records one
outcome per registered test, in order, each outcome determined by that test
alone; in particular on the suite [A(always fails), B(always passes)] with
the configured retry count 3, both outcomes are recorded, A as failed and B
as passed. -/
theorem suiteRunner_no_short_circuit {E : Type} (tests : List (Nat → Except E Unit))
    (retries : Int) :
    ((HealthCheck.runHealthChecks tests retries).outcomes
        = tests.map (fun t => recordedOutcome (HealthCheck.testWithRetry t retries).result)) ∧
    ((Integration.runIntegrationTests tests retries).outcomes
        = tests.map (fun t => recordedOutcome (HealthCheck.testWithRetry t retries).result)) ∧
    ∀ (tA tB : Nat → Except E Unit) (errA : Nat → E),
      (∀ j, tA j = Except.error (errA j)) → (∀ j, tB j = Except.ok ()) →
      (HealthCheck.runHealthChecks [tA, tB] 3).outcomes = [false, true] := by
  refine ⟨HealthCheck.runHealthChecks_outcomes tests retries,
    Integration.runIntegrationTests_outcomes tests retries, ?_⟩
  intro tA tB errA hA hB
  have hAres := HealthCheck.testWithRetry_allFail tA errA 3 (by decide) hA
  have hBres : HealthCheck.testWithRetry tB 3
      = { result := .ok (), calls := 1, sleeps := 0 } := by
    unfold HealthCheck.testWithRetry
    exact HealthCheck.retryGo_firstOk tB 0 (hB 0) 2
  rw [HealthCheck.runHealthChecks_outcomes]
  simp [hAres, hBres, recordedOutcome]

/-- Witness for claim C6 on the concrete suite [A(fails), B(passes)]. -/
theorem suiteRunner_no_short_circuit_witness :
    (HealthCheck.runHealthChecks
        [fun _ => Except.error "A failed", fun _ => Except.ok ()] (3 : Int)).outcomes
      = [false, true] :=
  (suiteRunner_no_short_circuit
      [fun _ => Except.error "A failed", fun _ => Except.ok ()] 3).2.2
    (fun _ => Except.error "A failed") (fun _ => Except.ok ())
    (fun _ => "A failed") (fun _ => rfl) (fun _ => rfl)

/-- Claim C7: `testEnvironmentConfig`, given a 200 response whose body is
the object with only the field environment = "dev", raises the error naming
the first missing required field in order, cors_origins. -/
theorem testEnvironmentConfig_missing_cors_origins :
    Integration.testEnvironmentConfig 200 (Except.ok [("environment", JsValue.str "dev")])
        = Except.error "Missing configuration field: cors_origins" :=
  rfl

/-- Claim C8: the pre-flight `checkServices` probe outcomes have no influence
on the exit code of `runAllTests`: two runs differing only in the probe
outcomes but with identical suite results produce the same exit code. -/
theorem runAllTests_preflight_independent (api1 web1 api2 web2 : ProbeOutcome)
    (suites : List Orchestrator.SuiteSpec) :
    Orchestrator.runAllTests api1 web1 suites
      = Orchestrator.runAllTests api2 web2 suites :=
  rfl

/-- Claim C9: for a non-positive retry budget, `testWithRetry` of
`tests/health-check.js` never invokes the test function, never sleeps,
raises no error and returns normally, so the suite loop counts the test as
passed without it ever running. -/
theorem testWithRetry_nonpositive_skips {E : Type} (testFn : Nat → Except E Unit)
    (retries : Int) (h : retries ≤ 0) :
    HealthCheck.testWithRetry testFn retries
        = { result := .ok (), calls := 0, sleeps := 0 } ∧
    HealthCheck.runHealthChecks [testFn] retries
        = { outcomes := [true], passed := 1, failed := 0 } := by
  have h0 : retries.toNat = 0 := by omega
  have h1 : HealthCheck.testWithRetry testFn retries
      = { result := .ok (), calls := 0, sleeps := 0 } := by
    unfold HealthCheck.testWithRetry
    rw [h0]
    rfl
  refine ⟨h1, ?_⟩
  simp [HealthCheck.runHealthChecks, h1]

/-- Witness for claim C9 at retry budget 0 and a concrete test function. -/
theorem testWithRetry_nonpositive_skips_witness :
    (0 : Int) ≤ 0 ∧
    (HealthCheck.testWithRetry (fun _ => Except.error "service down") (0 : Int)
        = { result := .ok (), calls := 0, sleeps := 0 } ∧
     HealthCheck.runHealthChecks [fun _ => Except.error "service down"] (0 : Int)
        = { outcomes := [true], passed := 1, failed := 0 }) :=
  ⟨by decide,
   testWithRetry_nonpositive_skips (fun _ => Except.error "service down") 0 (by decide)⟩

/-- Claim C10: `checkServices` is total at its interface, producing the two
booleans apiHealthy and webHealthy, and each probe maps to `true` exactly
when the service responded with HTTP status 200; any non-200 status,
connection error or timeout maps to `false`. -/
theorem checkServices_totality_and_200 (api web : ProbeOutcome) :
    ((checkServices api web).apiHealthy = true ↔ api = ProbeOutcome.response 200) ∧
    ((checkServices api web).webHealthy = true ↔ web = ProbeOutcome.response 200) := by
  refine ⟨?_, ?_⟩
  · cases api <;> simp [checkServices, checkService]
  · cases web <;> simp [checkServices, checkService]
